import Mathlib

/-!
Shallow embedding of `src/mysql_mcp_server/server_new.py` (the MySQL MCP
server).  Pure computations (configuration loading, URI construction and
parsing, result formatting, state transitions) are translated directly from
the source; the database driver is abstracted as an oracle (`DBOutcome`)
giving the outcome of the single driver call each handler makes.
-/

/-- Python truthiness of an optional string (`os.getenv` result): `None`
and the empty string are falsy, as tested by `if not all([...])`. -/
def truthy : Option String → Bool
  | none => false
  | some s => s != ""

/-- Python `str.strip` on a character list (ASCII whitespace model). -/
def pyTrim (l : List Char) : List Char :=
  ((l.dropWhile Char.isWhitespace).reverse.dropWhile Char.isWhitespace).reverse

/-- Accumulate a run of decimal digits; `none` on any non-digit. -/
def decDigits : Nat → List Char → Option Nat
  | acc, [] => some acc
  | acc, c :: cs =>
    if c.isDigit then decDigits (acc * 10 + (c.toNat - 48)) cs else none

/-- ASCII model of the Python builtin `int()` applied to a decimal string,
as in `int(os.getenv("MYSQL_PORT", "3306"))` (lines 28 and 33): surrounding
whitespace is ignored, an optional sign followed by decimal digits parses,
anything else raises `ValueError`. -/
def pyInt (s : String) : Option Int :=
  match pyTrim s.data with
  | [] => none
  | '-' :: ds =>
    match ds with
    | [] => none
    | _ => (decDigits 0 ds).map (fun n => -(n : Int))
  | '+' :: ds =>
    match ds with
    | [] => none
    | _ => (decDigits 0 ds).map (fun n => (n : Int))
  | ds => (decDigits 0 ds).map (fun n => (n : Int))

/-- The environment variables read by `get_db_config` (`none` = unset). -/
structure Env where
  mysql_host : Option String := none
  mysql_port : Option String := none
  mysql_user : Option String := none
  mysql_password : Option String := none
  mysql_database : Option String := none
  mysql_charset : Option String := none
  mysql_connection_timeout : Option String := none
deriving DecidableEq, Repr

/-- The configuration dict built by `get_db_config` (lines 26-35). -/
structure Config where
  host : String
  port : Int
  user : String
  password : String
  database : String
  charset : String
  connection_timeout : Int
  get_warnings : Bool
deriving DecidableEq, Repr

/-- `get_db_config` (lines 24-42).  The dict literal evaluates `int()` on
the port and timeout strings first (a parse failure raises a `ValueError`
right there); afterwards the required-field check raises when user,
password or database is unset or empty.  Errors are the raised `ValueError`
messages. -/
def get_db_config (e : Env) : Except String Config :=
  match pyInt (e.mysql_port.getD "3306") with
  | none => .error ("invalid literal for int() with base 10: " ++ e.mysql_port.getD "3306")
  | some port =>
    match pyInt (e.mysql_connection_timeout.getD "5") with
    | none =>
      .error ("invalid literal for int() with base 10: " ++
        e.mysql_connection_timeout.getD "5")
    | some timeout =>
      if truthy e.mysql_user && truthy e.mysql_password && truthy e.mysql_database then
        .ok { host := e.mysql_host.getD "localhost",
              port := port,
              user := e.mysql_user.getD "",
              password := e.mysql_password.getD "",
              database := e.mysql_database.getD "",
              charset := e.mysql_charset.getD "utf8",
              connection_timeout := timeout,
              get_warnings := true }
      else
        .error "Missing required database configuration"

/-- The snapshot stored in `CONNECTION_STATE["connection_details"]`
(lines 227-232). -/
structure ConnectionDetails where
  host : String
  port : Int
  user : String
  database : String
deriving DecidableEq, Repr

/-- The process-wide `CONNECTION_STATE` record (lines 18-22). -/
structure ConnectionState where
  is_connected : Bool
  last_error : Option String
  connection_details : Option ConnectionDetails
deriving DecidableEq, Repr

/-- The initial value of `CONNECTION_STATE` (lines 18-22). -/
def CONNECTION_STATE : ConnectionState :=
  { is_connected := false, last_error := none, connection_details := none }

/-- The `arguments` dict of a `call_tool` request: each key either present
or absent.  `port` arrives as an integer (`int(arguments["port"])`). -/
structure Args where
  host : Option String := none
  port : Option Int := none
  user : Option String := none
  password : Option String := none
  database : Option String := none
  query : Option String := none
deriving DecidableEq, Repr

/-- What the driver cursor yields on a successful call: column names
(`cursor.description`), fetched rows with each cell already passed through
`str(...)`, and `cursor.rowcount`. -/
structure QueryResult where
  columns : List String
  rows : List (List String)
  rowcount : Int
deriving DecidableEq, Repr

/-- Oracle for the one database-driver call a handler makes:
success, `mysql.connector.OperationalError`, or other
`mysql.connector.Error` (with `str(e)` as the message). -/
inductive DBOutcome where
  | success (res : QueryResult)
  | opError (msg : String)
  | dbError (msg : String)
deriving DecidableEq, Repr

/-- Python exceptions that escape a handler (protocol-level faults). -/
inductive PyError where
  | valueError (msg : String)
  | typeError (msg : String)
deriving DecidableEq, Repr

/-- A normal `call_tool` return: the new `CONNECTION_STATE`, the text of
the single returned `TextContent`, and the config dict handed to
`connect(**config)` (`none` when no database connection was attempted). -/
structure CallResult where
  state : ConnectionState
  text : String
  dbConfig : Option Config
deriving DecidableEq, Repr

/-- An MCP `Resource` as built in `list_resources` (lines 68-75). -/
structure Resource where
  uri : String
  name : String
  mimeType : String
  description : String
deriving DecidableEq, Repr

/-- Upper-case hexadecimal digit (`urllib.parse.quote` emits upper case). -/
def hexUpper (n : Nat) : Char :=
  if n < 10 then Char.ofNat (48 + n) else Char.ofNat (55 + n)

/-- Characters `urllib.parse.quote` leaves unescaped with its default
`safe='/'`: unreserved characters plus the slash. -/
def quoteSafe (c : Char) : Bool :=
  c.isAlphanum || c == '_' || c == '.' || c == '-' || c == '~' || c == '/'

/-- `urllib.parse.quote` on one character (ASCII model). -/
def quoteChar (c : Char) : List Char :=
  if quoteSafe c then [c] else ['%', hexUpper (c.toNat / 16), hexUpper (c.toNat % 16)]

/-- ASCII model of `urllib.parse.quote` with default arguments, as applied
to the table name at line 66. -/
def quote (s : String) : String := String.mk ((s.data.map quoteChar).flatten)

/-- Value of a hexadecimal digit character. -/
def hexVal (c : Char) : Option Nat :=
  if 48 ≤ c.toNat ∧ c.toNat ≤ 57 then some (c.toNat - 48)
  else if 65 ≤ c.toNat ∧ c.toNat ≤ 70 then some (c.toNat - 55)
  else if 97 ≤ c.toNat ∧ c.toNat ≤ 102 then some (c.toNat - 87)
  else none

/-- ASCII model of `urllib.parse.unquote` (decoding `%XX` escapes), used
only to state the encode/decode round trip; the server itself never
decodes. -/
def unquoteChars : List Char → List Char
  | [] => []
  | [c] => [c]
  | [c, d] => [c, d]
  | c :: h₁ :: h₂ :: rest =>
    if c = '%' then
      match hexVal h₁, hexVal h₂ with
      | some a, some b => Char.ofNat (16 * a + b) :: unquoteChars rest
      | _, _ => c :: unquoteChars (h₁ :: h₂ :: rest)
    else c :: unquoteChars (h₁ :: h₂ :: rest)

/-- ASCII model of `urllib.parse.unquote` on strings. -/
def unquote (s : String) : String := String.mk (unquoteChars s.data)

/-- Python `str.split` on the slash separator (line 102). -/
def splitSlash : List Char → List (List Char)
  | [] => [[]]
  | c :: cs =>
    let r := splitSlash cs
    if c = '/' then [] :: r else (c :: r.headD []) :: r.tail

/-- Lines 102-103 of `read_resource`:
`parts = uri_str[8:].split('/')`, `table = parts[0]`. -/
def extractTable (uri : String) : String :=
  String.mk ((splitSlash (uri.data.drop 8)).headD [])

/-- One `Resource` as built in `list_resources` (lines 68-75). -/
def mkResource (table_name : String) : Resource :=
  { uri := "mysql://" ++ quote table_name ++ "/data",
    name := "Table: " ++ table_name,
    mimeType := "text/plain",
    description := "Data in table: " ++ table_name }

/-- SELECT-result formatting (lines 287-290, identically lines 109-112):
a comma-joined header of column names, then one comma-joined line per row,
with no escaping or quoting. -/
def formatSelect (columns : List String) (rows : List (List String)) : String :=
  String.intercalate "\n"
    (String.intercalate "," columns :: rows.map (fun row => String.intercalate "," row))

/-- Python `str.startswith`. -/
def pyStartswith (s pre : String) : Bool := pre.data.isPrefixOf s.data

/-- ASCII model of `query.strip().upper()` (lines 279 and 286). -/
def stripUpper (q : String) : String := String.mk ((pyTrim q.data).map Char.toUpper)

/-- `list_resources` (lines 47-86), with the `SHOW TABLES` driver call
abstracted as a `DBOutcome` (its rows are one-column rows whose first cell
is the table name).  `get_db_config` runs outside the `try`, so its
`ValueError` propagates. -/
def list_resources (env : Env) (db : DBOutcome) (s : ConnectionState) :
    Except PyError (ConnectionState × List Resource) :=
  if s.is_connected = false then .ok (s, [])
  else
    match get_db_config env with
    | .error m => .error (.valueError m)
    | .ok _cfg =>
      match db with
      | .success res => .ok (s, res.rows.map (fun row => mkResource (row.headD "")))
      | .opError m => .ok ({ s with is_connected := false, last_error := some m }, [])
      | .dbError _ => .ok (s, [])

/-- `read_resource` (lines 88-123).  The extracted table name is spliced
into `SELECT * FROM {table} LIMIT 100`, whose outcome the oracle gives;
`get_db_config` and the scheme check run outside the `try`, so their
`ValueError` propagates. -/
def read_resource (uri : String) (env : Env) (db : DBOutcome) (s : ConnectionState) :
    Except PyError (ConnectionState × String) :=
  if s.is_connected = false then
    .ok (s, "Error: Not connected to MySQL. Please use the 'connect' tool first.")
  else
    match get_db_config env with
    | .error m => .error (.valueError m)
    | .ok _cfg =>
      if pyStartswith uri "mysql://" = false then
        .error (.valueError ("Invalid URI scheme: " ++ uri))
      else
        match db with
        | .success res => .ok (s, formatSelect res.columns res.rows)
        | .opError m =>
          .ok ({ s with is_connected := false, last_error := some m },
            "Error: Connection to MySQL lost. " ++ m)
        | .dbError m => .ok (s, "Error: " ++ m)

/-- The `connect` branch of `call_tool` (lines 201-242): base config from
the environment, caller overrides applied, then the probe `SELECT 1`. -/
def connectTool (args : Args) (env : Env) (db : DBOutcome) (s : ConnectionState) :
    Except PyError CallResult :=
  match get_db_config env with
  | .error m => .error (.valueError m)
  | .ok base =>
    let cfg : Config :=
      { base with
        host := args.host.getD base.host,
        port := args.port.getD base.port,
        user := args.user.getD base.user,
        password := args.password.getD base.password,
        database := args.database.getD base.database }
    let connectedState : ConnectionState :=
      { is_connected := true, last_error := none,
        connection_details := some { host := cfg.host, port := cfg.port,
                                     user := cfg.user, database := cfg.database } }
    match db with
    | .success _ =>
      .ok { state := connectedState,
            text := "Successfully connected to MySQL at " ++ cfg.host ++ ":" ++
              toString cfg.port ++ " as " ++ cfg.user ++ " (database: " ++
              cfg.database ++ ")",
            dbConfig := some cfg }
    | .opError m =>
      .ok { state := { s with is_connected := false, last_error := some m },
            text := "Failed to connect to MySQL: " ++ m,
            dbConfig := some cfg }
    | .dbError m =>
      .ok { state := { s with is_connected := false, last_error := some m },
            text := "Database error: " ++ m,
            dbConfig := some cfg }

/-- The `disconnect` branch of `call_tool` (lines 245-248). -/
def disconnectTool (s : ConnectionState) : Except PyError CallResult :=
  .ok { state := { s with is_connected := false, last_error := none },
        text := "Disconnected from MySQL.",
        dbConfig := none }

/-- The `connection_status` branch of `call_tool` (lines 251-259).  When
`is_connected` were true with a `None` details record, the subscript
`details['host']` would raise a `TypeError`; every state the program
actually produces has details present in that case. -/
def connectionStatusTool (s : ConnectionState) : Except PyError CallResult :=
  if s.is_connected = true then
    match s.connection_details with
    | some d =>
      .ok { state := s,
            text := "Connected to MySQL at " ++ d.host ++ ":" ++ toString d.port ++
              " as " ++ d.user ++ " (database: " ++ d.database ++ ")",
            dbConfig := none }
    | none => .error (.typeError "NoneType object is not subscriptable")
  else
    .ok { state := s,
          text := "Not connected to MySQL." ++
            (match s.last_error with
             | some e => if e != "" then " Last error: " ++ e else ""
             | none => ""),
          dbConfig := none }

/-- The `execute_sql` branch of `call_tool` (lines 262-303): connected
check, query-argument check, config from the environment, then the driver
call whose outcome the oracle gives. -/
def executeSqlTool (args : Args) (env : Env) (db : DBOutcome) (s : ConnectionState) :
    Except PyError CallResult :=
  if s.is_connected = false then
    .ok { state := s,
          text := "Not connected to MySQL. Please use the 'connect' tool first.",
          dbConfig := none }
  else
    match args.query with
    | none => .error (.valueError "Query is required")
    | some q =>
      if q = "" then .error (.valueError "Query is required")
      else
        match get_db_config env with
        | .error m => .error (.valueError m)
        | .ok cfg =>
          match db with
          | .success res =>
            if pyStartswith (stripUpper q) "SHOW TABLES" then
              .ok { state := s,
                    text := String.intercalate "\n"
                      (("Tables_in_" ++ cfg.database) ::
                        res.rows.map (fun row => row.headD "")),
                    dbConfig := some cfg }
            else if pyStartswith (stripUpper q) "SELECT" then
              .ok { state := s, text := formatSelect res.columns res.rows,
                    dbConfig := some cfg }
            else
              .ok { state := s,
                    text := "Query executed successfully. Rows affected: " ++
                      toString res.rowcount,
                    dbConfig := some cfg }
          | .opError m =>
            .ok { state := { s with is_connected := false, last_error := some m },
                  text := "Connection lost: " ++ m ++
                    ". Please reconnect using the 'connect' tool.",
                  dbConfig := some cfg }
          | .dbError m =>
            .ok { state := s, text := "Error executing query: " ++ m,
                  dbConfig := some cfg }

/-- The `call_tool` dispatcher (lines 195-306). -/
def call_tool (name : String) (args : Args) (env : Env) (db : DBOutcome)
    (s : ConnectionState) : Except PyError CallResult :=
  if name = "connect" then connectTool args env db s
  else if name = "disconnect" then disconnectTool s
  else if name = "connection_status" then connectionStatusTool s
  else if name = "execute_sql" then executeSqlTool args env db s
  else .error (.valueError ("Unknown tool: " ++ name))

/-- One dispatched operation of the server, with its oracle outcome. -/
inductive Op where
  | tool (name : String) (args : Args) (db : DBOutcome)
  | listR (db : DBOutcome)
  | readR (uri : String) (db : DBOutcome)
deriving Repr

/-- The `CONNECTION_STATE` after one dispatched operation; on a propagated
exception the state is whatever it was before (no handler mutates state
before its raise points). -/
def stepState (env : Env) (op : Op) (s : ConnectionState) : ConnectionState :=
  match op with
  | .tool n a db =>
    match call_tool n a env db s with
    | .ok r => r.state
    | .error _ => s
  | .listR db =>
    match list_resources env db s with
    | .ok (s2, _) => s2
    | .error _ => s
  | .readR u db =>
    match read_resource u env db s with
    | .ok (s2, _) => s2
    | .error _ => s

/-- The state after a sequence of dispatched operations. -/
def runOps : ConnectionState → List (Env × Op) → ConnectionState
  | s, [] => s
  | s, (e, op) :: rest => runOps (stepState e op s) rest

/-- A state the server can actually be in: reachable from the initial
`CONNECTION_STATE` by some sequence of dispatched operations. -/
def Reachable (s : ConnectionState) : Prop :=
  ∃ l : List (Env × Op), runOps CONNECTION_STATE l = s

/-- The direction of the state invariant the code does maintain: while
connected, a details snapshot is present and no error is recorded. -/
def WInv (s : ConnectionState) : Prop :=
  s.is_connected = true → s.connection_details ≠ none ∧ s.last_error = none

deriving instance DecidableEq for Except

/-! Concrete fixtures used by witnesses and counterexamples. -/

def envA : Env :=
  { mysql_user := some "u", mysql_password := some "p", mysql_database := some "d" }

def cfgA : Config :=
  { host := "localhost", port := 3306, user := "u", password := "p",
    database := "d", charset := "utf8", connection_timeout := 5, get_warnings := true }

def sConn : ConnectionState :=
  { is_connected := true, last_error := none,
    connection_details := some { host := "localhost", port := 3306, user := "u", database := "d" } }

def resEmpty : QueryResult := { columns := [], rows := [], rowcount := 0 }

def resAB : QueryResult :=
  { columns := ["a", "b"], rows := [["1", "x"], ["2", "y"]], rowcount := 2 }

def argsQ : Args := { query := some "SELECT * FROM t" }

def sOverride : ConnectionState :=
  { is_connected := true, last_error := none,
    connection_details := some { host := "otherhost", port := 9999, user := "v", database := "e" } }

def opsConnect : List (Env × Op) := [(envA, .tool "connect" {} (.success resEmpty))]

def opsConnectDisconnect : List (Env × Op) :=
  [(envA, .tool "connect" {} (.success resEmpty)),
   (envA, .tool "disconnect" {} (.success resEmpty))]

def envBadPort : Env :=
  { mysql_port := some "abc", mysql_user := some "u", mysql_password := some "p",
    mysql_database := some "d" }

/-! Helper lemmas shared by the claim theorems. -/

theorem winv_step (env : Env) (op : Op) (s : ConnectionState) (h : WInv s) :
    WInv (stepState env op s) := by
  cases op with
  | tool n a db =>
    simp only [stepState]
    split
    case h_2 => exact h
    case h_1 r heq =>
      simp only [call_tool, connectTool, disconnectTool, connectionStatusTool,
        executeSqlTool] at heq
      repeat' split at heq
      all_goals
        first
          | exact Except.noConfusion heq
          | (simp only [Except.ok.injEq] at heq
             subst heq
             first
               | exact h
               | (intro hc; exact Bool.noConfusion hc)
               | (intro _; exact ⟨Option.some_ne_none _, rfl⟩))
  | listR db =>
    simp only [stepState]
    split
    case h_2 => exact h
    case h_1 s2 res heq =>
      simp only [list_resources] at heq
      repeat' split at heq
      all_goals
        first
          | exact Except.noConfusion heq
          | (simp only [Except.ok.injEq, Prod.mk.injEq] at heq
             obtain ⟨h1, h2⟩ := heq
             subst h1
             first
               | exact h
               | (intro hc; exact Bool.noConfusion hc))
  | readR uri db =>
    simp only [stepState]
    split
    case h_2 => exact h
    case h_1 s2 txt heq =>
      simp only [read_resource] at heq
      repeat' split at heq
      all_goals
        first
          | exact Except.noConfusion heq
          | (simp only [Except.ok.injEq, Prod.mk.injEq] at heq
             obtain ⟨h1, h2⟩ := heq
             subst h1
             first
               | exact h
               | (intro hc; exact Bool.noConfusion hc))

theorem winv_runOps (l : List (Env × Op)) : ∀ s : ConnectionState, WInv s → WInv (runOps s l) := by
  induction l with
  | nil => intro s h; exact h
  | cons p rest ih => intro s h; exact ih _ (winv_step p.1 p.2 s h)

theorem winv_initial : WInv CONNECTION_STATE := by
  intro hc
  exact Bool.noConfusion hc

theorem reachable_winv (s : ConnectionState) (h : Reachable s) : WInv s := by
  obtain ⟨l, rfl⟩ := h
  exact winv_runOps l _ winv_initial

theorem call_tool_eq_executeSql (args : Args) (env : Env) (db : DBOutcome) (s : ConnectionState) :
    call_tool "execute_sql" args env db s = executeSqlTool args env db s := rfl

theorem startsWith_select_not_show (u : String) (h : pyStartswith u "SELECT" = true) :
    pyStartswith u "SHOW TABLES" = false := by
  have h2 : "SELECT".data <+: u.data := by
    rw [← List.isPrefixOf_iff_prefix]; exact h
  obtain ⟨t, ht⟩ := h2
  have ht' : u.data = 'S' :: 'E' :: 'L' :: 'E' :: 'C' :: 'T' :: t := by rw [← ht]; rfl
  show ("SHOW TABLES".data.isPrefixOf u.data) = false
  rw [ht']
  rfl

theorem hexUpper_lt16_ne_slash : ∀ n : Nat, n < 16 → ¬ hexUpper n = '/' := by decide

theorem hexVal_hexUpper : ∀ n : Nat, n < 16 → hexVal (hexUpper n) = some n := by decide

theorem quoteSafe_ne_percent (c : Char) (h : quoteSafe c = true) : ¬ c = '%' := by
  intro hc
  rw [hc] at h
  exact Bool.noConfusion h

theorem quoteChar_no_slash (c : Char) (hc : c.toNat < 128) (hne : ¬ c = '/') :
    ('/' : Char) ∉ quoteChar c := by
  unfold quoteChar
  by_cases hs : quoteSafe c = true
  · rw [if_pos hs]
    intro h
    rw [List.mem_singleton] at h
    exact hne h.symm
  · rw [if_neg hs]
    intro hdisj
    rcases List.mem_cons.mp hdisj with h1 | hdisj2
    · exact absurd h1 (by decide)
    · rcases List.mem_cons.mp hdisj2 with h2 | hdisj3
      · exact hexUpper_lt16_ne_slash (c.toNat / 16)
          (lt_of_lt_of_le (Nat.div_lt_div_of_lt_of_dvd ⟨8, rfl⟩ hc) (by norm_num)) h2.symm
      · rw [List.mem_singleton] at hdisj3
        exact hexUpper_lt16_ne_slash (c.toNat % 16) (Nat.mod_lt _ (by norm_num)) hdisj3.symm

theorem quote_no_slash (t : String) (hascii : ∀ c ∈ t.data, c.toNat < 128)
    (hslash : ('/' : Char) ∉ t.data) : ('/' : Char) ∉ (quote t).data := by
  intro hmem
  have : ∃ l ∈ t.data.map quoteChar, ('/' : Char) ∈ l := List.mem_flatten.mp hmem
  obtain ⟨l, hl, hmem2⟩ := this
  obtain ⟨c, hcmem, rfl⟩ := List.mem_map.mp hl
  exact quoteChar_no_slash c (hascii c hcmem) (fun h => hslash (h ▸ hcmem)) hmem2

theorem splitSlash_head_append (b : List Char) :
    ∀ a : List Char, ('/' : Char) ∉ a → (splitSlash (a ++ '/' :: b)).headD [] = a := by
  intro a
  induction a with
  | nil => intro _; rfl
  | cons c a' ih =>
    intro hna
    have hc : ¬ c = '/' := fun h => hna (h ▸ List.mem_cons_self c a')
    have ha' : ('/' : Char) ∉ a' := fun h => hna (List.mem_cons_of_mem c h)
    simp only [List.cons_append, splitSlash, hc, if_false, ite_false, List.headD_cons]
    exact congrArg (fun l => c :: l) (ih ha')

theorem extractTable_mkResource (t : String) (hascii : ∀ c ∈ t.data, c.toNat < 128)
    (hslash : ('/' : Char) ∉ t.data) :
    extractTable (mkResource t).uri = quote t := by
  unfold extractTable mkResource
  have hdata : ("mysql://" ++ quote t ++ "/data").data =
      "mysql://".data ++ ((quote t).data ++ "/data".data) := by
    rw [String.data_append, String.data_append, List.append_assoc]
  rw [hdata]
  have hdrop : ("mysql://".data ++ ((quote t).data ++ "/data".data)).drop 8 =
      (quote t).data ++ "/data".data := by
    rw [show (8 : Nat) = ("mysql://".data).length from rfl, List.drop_left]
  rw [hdrop]
  have hsp : (quote t).data ++ "/data".data = (quote t).data ++ '/' :: "data".data := rfl
  rw [hsp, splitSlash_head_append _ _ (quote_no_slash t hascii hslash)]

theorem unquoteChars_cons (c : Char) (hc : ¬ c = '%') (m : List Char) :
    unquoteChars (c :: m) = c :: unquoteChars m := by
  match m with
  | [] => rfl
  | [d] => rfl
  | d₁ :: d₂ :: r => simp only [unquoteChars, if_neg hc]

theorem unquoteChars_quote (l : List Char) (hascii : ∀ c ∈ l, c.toNat < 128) :
    unquoteChars ((l.map quoteChar).flatten) = l := by
  induction l with
  | nil => rfl
  | cons c l' ih =>
    have hc : c.toNat < 128 := hascii c (List.mem_cons_self c l')
    have hl' : ∀ x ∈ l', x.toNat < 128 := fun x hx => hascii x (List.mem_cons_of_mem c hx)
    simp only [List.map_cons, List.flatten_cons]
    by_cases hs : quoteSafe c = true
    · rw [show quoteChar c = [c] from by unfold quoteChar; rw [if_pos hs]]
      rw [List.singleton_append, unquoteChars_cons c (quoteSafe_ne_percent c hs) _, ih hl']
    · rw [show quoteChar c = ['%', hexUpper (c.toNat / 16), hexUpper (c.toNat % 16)] from by
        unfold quoteChar; rw [if_neg hs]]
      show unquoteChars ('%' :: hexUpper (c.toNat / 16) :: hexUpper (c.toNat % 16) ::
        (l'.map quoteChar).flatten) = c :: l'
      simp only [unquoteChars, if_pos rfl]

      rw [hexVal_hexUpper (c.toNat / 16)
        (lt_of_lt_of_le (Nat.div_lt_div_of_lt_of_dvd ⟨8, rfl⟩ hc) (by norm_num))]
      rw [hexVal_hexUpper (c.toNat % 16) (Nat.mod_lt _ (by norm_num))]
      show Char.ofNat (16 * (c.toNat / 16) + c.toNat % 16) ::
        unquoteChars ((l'.map quoteChar).flatten) = c :: l'
      rw [Nat.div_add_mod c.toNat 16, Char.ofNat_toNat, ih hl']

theorem unquote_quote (t : String) (hascii : ∀ c ∈ t.data, c.toNat < 128) :
    unquote (quote t) = t := by
  show String.mk (unquoteChars ((t.data.map quoteChar).flatten)) = t
  rw [unquoteChars_quote t.data hascii]

/-! The claims. -/

/-- C1 (counterexample): the claimed biconditional state invariant
(`connection_details` non-null iff `is_connected`) is violated after a
dispatched sequence consisting of a successful `connect` followed by
`disconnect`: the disconnect handler (lines 245-248) clears `is_connected`
and `last_error` but leaves the `connection_details` snapshot in place. -/
theorem connection_details_invariant_cex :
    ¬ ((¬ (runOps CONNECTION_STATE opsConnectDisconnect).connection_details = none ↔
          (runOps CONNECTION_STATE opsConnectDisconnect).is_connected = true) ∧
        ((runOps CONNECTION_STATE opsConnectDisconnect).is_connected = true →
          (runOps CONNECTION_STATE opsConnectDisconnect).last_error = none)) := by
  decide

/-- C1 (amended): after every sequence of dispatched operations (connect,
disconnect, connection_status, execute_sql, list_resources, read_resource),
if `is_connected` is true then `connection_details` is non-null and
`last_error` is null.  The converse direction of the claimed invariant
fails, see the counterexample. -/
theorem connection_state_invariant (l : List (Env × Op)) :
    (runOps CONNECTION_STATE l).is_connected = true →
      ¬ (runOps CONNECTION_STATE l).connection_details = none ∧
        (runOps CONNECTION_STATE l).last_error = none :=
  winv_runOps l CONNECTION_STATE winv_initial

/-- C1 (witness): the amended invariant evaluated after a successful
`connect` from the initial state. -/
theorem connection_state_invariant_witness :
    ¬ (runOps CONNECTION_STATE opsConnect).connection_details = none ∧
      (runOps CONNECTION_STATE opsConnect).last_error = none :=
  connection_state_invariant opsConnect (by decide)

/-- C2 (counterexample): for the table name "my table" the URI path segment
is the percent-encoded "my%20table", and `read_resource` extracts that
encoded segment, which taken literally is not the original name; for the
table name "a/b" the slash is left unencoded by `quote` (whose default safe
set keeps the slash), so extraction truncates at it. -/
theorem resource_roundtrip_cex :
    extractTable (mkResource "my table").uri = "my%20table" ∧
    ¬ ("my%20table" : String) = "my table" ∧
    extractTable (mkResource "a/b").uri = "a" ∧ ¬ ("a" : String) = "a/b" := by
  decide

/-- C2 (amended): for every ASCII table name containing no slash,
`list_resources` produces the URI `mysql://{quote name}/data`,
`read_resource` extracts exactly the percent-encoded segment `quote name`
(literally, without decoding), and percent-decoding that segment recovers
the original name.  Names needing encoding (e.g. with a space) therefore do
not round-trip literally, and names containing a slash are truncated at it. -/
theorem resource_roundtrip_amended (t : String)
    (hascii : ∀ c ∈ t.data, c.toNat < 128) (hslash : ('/' : Char) ∉ t.data) :
    extractTable (mkResource t).uri = quote t ∧ unquote (quote t) = t :=
  ⟨extractTable_mkResource t hascii hslash, unquote_quote t hascii⟩

/-- C2 (witness): the amended round trip evaluated at "my table". -/
theorem resource_roundtrip_amended_witness :
    extractTable (mkResource "my table").uri = quote "my table" ∧
    unquote (quote "my table") = "my table" :=
  resource_roundtrip_amended "my table" (by decide) (by decide)

/-- C3: while connected, `execute_sql` derives the configuration it hands
to the driver from the environment alone (line 273): for any connection
state (in particular one whose details record overrides from a prior
`connect`) and any override-bearing arguments, the config used is exactly
`get_db_config env`. -/
theorem execute_sql_env_config (env : Env) (cfg : Config) (args : Args) (db : DBOutcome)
    (s : ConnectionState) (q : String)
    (hconn : s.is_connected = true) (hq : args.query = some q) (hne : ¬ q = "")
    (hcfg : get_db_config env = .ok cfg) :
    ∃ r : CallResult, call_tool "execute_sql" args env db s = .ok r ∧ r.dbConfig = some cfg := by
  rw [call_tool_eq_executeSql]
  unfold executeSqlTool
  rw [hconn, hq, hcfg]
  simp only [hne, if_false, ite_false]
  cases db with
  | success res =>
    by_cases h1 : pyStartswith (stripUpper q) "SHOW TABLES" = true
    · simp [h1]
    · by_cases h2 : pyStartswith (stripUpper q) "SELECT" = true
      · simp [h1, h2]
      · simp [h1, h2]
  | opError m => simp
  | dbError m => simp

/-- C3 (witness): executed against a state whose details snapshot records
overrides (host "otherhost", port 9999), the config used is still the
environment-derived `cfgA`. -/
theorem execute_sql_env_config_witness :
    ∃ r : CallResult, call_tool "execute_sql" argsQ envA (.success resAB) sOverride = .ok r ∧
      r.dbConfig = some cfgA :=
  execute_sql_env_config envA cfgA argsQ (.success resAB) sOverride "SELECT * FROM t"
    rfl rfl (by decide) (by decide)

/-- C4: `execute_sql` while disconnected returns exactly the not-connected
text, attempts no database connection (`dbConfig = none`), and leaves the
connection state unchanged, for every environment, argument record and
driver oracle. -/
theorem execute_sql_not_connected (env : Env) (args : Args) (db : DBOutcome)
    (s : ConnectionState) (h : s.is_connected = false) :
    call_tool "execute_sql" args env db s =
      .ok { state := s,
            text := "Not connected to MySQL. Please use the 'connect' tool first.",
            dbConfig := none } := by
  rw [call_tool_eq_executeSql]
  unfold executeSqlTool
  rw [h]
  rfl

/-- C4 (witness): evaluated at the initial (disconnected) state. -/
theorem execute_sql_not_connected_witness :
    call_tool "execute_sql" argsQ envA (.success resAB) CONNECTION_STATE =
      .ok { state := CONNECTION_STATE,
            text := "Not connected to MySQL. Please use the 'connect' tool first.",
            dbConfig := none } :=
  execute_sql_not_connected envA argsQ (.success resAB) CONNECTION_STATE rfl

/-- C5: `disconnect` always succeeds, returns "Disconnected from MySQL.",
and leaves `is_connected` false and `last_error` null, from every prior
state. -/
theorem disconnect_always (env : Env) (args : Args) (db : DBOutcome) (s : ConnectionState) :
    ∃ r : CallResult, call_tool "disconnect" args env db s = .ok r ∧
      r.text = "Disconnected from MySQL." ∧
      r.state.is_connected = false ∧ r.state.last_error = none :=
  ⟨_, rfl, rfl, rfl, rfl⟩

/-- C6: a statement whose stripped upper-cased text starts with SELECT,
executed while connected with a successful driver call, yields exactly the
comma-joined column-name header followed by one comma-joined line per row,
with no escaping or quoting of cells. -/
theorem execute_sql_select_format (env : Env) (cfg : Config) (args : Args)
    (s : ConnectionState) (q : String) (res : QueryResult)
    (hconn : s.is_connected = true) (hq : args.query = some q)
    (hcfg : get_db_config env = .ok cfg)
    (hsel : pyStartswith (stripUpper q) "SELECT" = true) :
    call_tool "execute_sql" args env (.success res) s =
      .ok { state := s,
            text := String.intercalate "\n"
              (String.intercalate "," res.columns ::
                res.rows.map (fun row => String.intercalate "," row)),
            dbConfig := some cfg } := by
  have hne : ¬ q = "" := by
    intro h
    rw [h] at hsel
    exact absurd hsel (by decide)
  rw [call_tool_eq_executeSql]
  unfold executeSqlTool
  rw [hconn, hq, hcfg]
  simp only [hne, if_false, ite_false, startsWith_select_not_show _ hsel, hsel, if_true, ite_true]
  rfl

/-- C6 (witness): for columns (a,b) and rows (1,x),(2,y) the output is
exactly "a,b\n1,x\n2,y". -/
theorem execute_sql_select_format_witness :
    call_tool "execute_sql" argsQ envA (.success resAB) sConn =
      .ok { state := sConn, text := "a,b\n1,x\n2,y", dbConfig := some cfgA } := by
  have h := execute_sql_select_format envA cfgA argsQ sConn "SELECT * FROM t" resAB
    rfl rfl (by decide) (by decide)
  rw [h]
  rfl

/-- C7: a statement-level driver error (a `mysql.connector.Error` that is
not an `OperationalError`) during `execute_sql` or `read_resource` leaves
the whole connection state unchanged and is reported as plain text, not as
an exception. -/
theorem statement_error_keeps_state (env : Env) (cfg : Config) (args : Args)
    (s : ConnectionState) (q : String) (uri : String) (m : String)
    (hconn : s.is_connected = true) (hq : args.query = some q) (hne : ¬ q = "")
    (hcfg : get_db_config env = .ok cfg)
    (huri : pyStartswith uri "mysql://" = true) :
    call_tool "execute_sql" args env (.dbError m) s =
      .ok { state := s, text := "Error executing query: " ++ m, dbConfig := some cfg } ∧
    read_resource uri env (.dbError m) s = .ok (s, "Error: " ++ m) := by
  constructor
  · rw [call_tool_eq_executeSql]
    unfold executeSqlTool
    rw [hconn, hq, hcfg]
    simp [hne]
  · unfold read_resource
    rw [hconn, hcfg, huri]
    rfl

/-- C7 (witness): a failing statement with message "boom" on a live
connection. -/
theorem statement_error_keeps_state_witness :
    call_tool "execute_sql" argsQ envA (.dbError "boom") sConn =
      .ok { state := sConn, text := "Error executing query: boom", dbConfig := some cfgA } ∧
    read_resource "mysql://t/data" envA (.dbError "boom") sConn = .ok (sConn, "Error: boom") :=
  statement_error_keeps_state envA cfgA argsQ sConn "SELECT * FROM t" "mysql://t/data" "boom"
    rfl rfl (by decide) (by decide) (by decide)

/-- C9: `connection_status` never fails and never mutates the connection
state: for every state the server can actually be in (reachable by
dispatched operations), it returns some text alongside the unchanged state
and attempts no database connection. -/
theorem connection_status_pure (s : ConnectionState) (hreach : Reachable s)
    (env : Env) (args : Args) (db : DBOutcome) :
    ∃ t : String, call_tool "connection_status" args env db s =
      .ok { state := s, text := t, dbConfig := none } := by
  have hred : call_tool "connection_status" args env db s = connectionStatusTool s := rfl
  rw [hred]
  unfold connectionStatusTool
  by_cases hc : s.is_connected = true
  · obtain ⟨hd, -⟩ := reachable_winv s hreach hc
    cases hdm : s.connection_details with
    | some d => simp only [hc, if_true, hdm]; exact ⟨_, rfl⟩
    | none => exact absurd hdm hd
  · simp only [hc, if_false, ite_false]
    exact ⟨_, rfl⟩

/-- C9 (witness): evaluated at the connected state reached by a successful
`connect`. -/
theorem connection_status_pure_witness :
    ∃ t : String, call_tool "connection_status" {} envA (.success resAB) sConn =
      .ok { state := sConn, text := t, dbConfig := none } :=
  connection_status_pure sConn ⟨opsConnect, by decide⟩ envA {} (.success resAB)

/-- C10: in `execute_sql` the connected check precedes argument validation:
while disconnected the call returns the not-connected text (an ordinary
result, not an exception) whatever the arguments, and the "Query is
required" `ValueError` is raised exactly when the state is connected and
the query argument is missing or empty. -/
theorem execute_sql_checks_connection_first (env : Env) (args : Args) (db : DBOutcome)
    (s : ConnectionState) :
    (s.is_connected = false →
      call_tool "execute_sql" args env db s =
        .ok { state := s,
              text := "Not connected to MySQL. Please use the 'connect' tool first.",
              dbConfig := none })
    ∧ (s.is_connected = true → (args.query = none ∨ args.query = some "") →
      call_tool "execute_sql" args env db s = .error (.valueError "Query is required")) := by
  constructor
  · intro h
    rw [call_tool_eq_executeSql]
    unfold executeSqlTool
    rw [h]
    rfl
  · intro hc hq
    rw [call_tool_eq_executeSql]
    unfold executeSqlTool
    rw [hc]
    rcases hq with hq | hq <;> rw [hq] <;> rfl

/-- C10 (witness): a missing query while disconnected yields the
not-connected text; the same missing query while connected raises the
validation error. -/
theorem execute_sql_checks_connection_first_witness :
    call_tool "execute_sql" {} envA (.success resAB) CONNECTION_STATE =
      .ok { state := CONNECTION_STATE,
            text := "Not connected to MySQL. Please use the 'connect' tool first.",
            dbConfig := none } ∧
    call_tool "execute_sql" {} envA (.success resAB) sConn =
      .error (.valueError "Query is required") :=
  ⟨(execute_sql_checks_connection_first envA {} (.success resAB) CONNECTION_STATE).1 rfl,
   (execute_sql_checks_connection_first envA {} (.success resAB) sConn).2 rfl (Or.inl rfl)⟩

/-- C8 (counterexample): with user, password and database all present and
non-empty but `MYSQL_PORT` set to the non-numeric "abc", `get_db_config`
still raises (the `int()` conversion at dict-construction time fails), so
the claimed "raises if and only if user, password, or database is absent
or empty" is false. -/
theorem get_db_config_cex :
    ¬ ((get_db_config envBadPort).isOk = true ↔
        (truthy envBadPort.mysql_user = true ∧ truthy envBadPort.mysql_password = true ∧
          truthy envBadPort.mysql_database = true)) := by
  decide

/-- C8 (amended): provided the port and connection-timeout environment
strings (or their defaults) parse as integers, `get_db_config` fails
exactly when user, password or database is absent or empty — no other
validation — and when it succeeds with host, port, charset and timeout
unset, the config carries the defaults "localhost", 3306, "utf8" and 5. -/
theorem get_db_config_contract (env : Env)
    (hport : (pyInt (env.mysql_port.getD "3306")).isSome = true)
    (htimeout : (pyInt (env.mysql_connection_timeout.getD "5")).isSome = true) :
    ((get_db_config env).isOk = true ↔
      (truthy env.mysql_user = true ∧ truthy env.mysql_password = true ∧
        truthy env.mysql_database = true))
    ∧ (∀ cfg : Config, get_db_config env = .ok cfg →
        (env.mysql_host = none → cfg.host = "localhost") ∧
        (env.mysql_port = none → cfg.port = 3306) ∧
        (env.mysql_charset = none → cfg.charset = "utf8") ∧
        (env.mysql_connection_timeout = none → cfg.connection_timeout = 5)) := by
  obtain ⟨p, hp⟩ := Option.isSome_iff_exists.mp hport
  obtain ⟨tmo, htm⟩ := Option.isSome_iff_exists.mp htimeout
  constructor
  · unfold get_db_config
    rw [hp, htm]
    cases hcond : (truthy env.mysql_user && truthy env.mysql_password && truthy env.mysql_database) with
    | true =>
      simp only [if_true, ite_true, Except.isOk]
      simp only [Bool.and_eq_true] at hcond
      exact ⟨fun _ => ⟨hcond.1.1, hcond.1.2, hcond.2⟩, fun _ => rfl⟩
    | false =>
      simp only [if_false, ite_false, Except.isOk]
      constructor
      · intro h; exact Bool.noConfusion h
      · intro ⟨h1, h2, h3⟩
        rw [h1, h2, h3] at hcond
        exact Bool.noConfusion hcond
  · intro cfg hcfg
    unfold get_db_config at hcfg
    rw [hp, htm] at hcfg
    by_cases hcond : (truthy env.mysql_user && truthy env.mysql_password && truthy env.mysql_database) = true
    · rw [hcond] at hcfg
      simp only [if_true, ite_true, Except.ok.injEq] at hcfg
      subst hcfg
      refine ⟨?_, ?_, ?_, ?_⟩
      · intro hh; rw [hh]; rfl
      · intro hh
        rw [hh] at hp
        simp only [Option.getD_none] at hp
        have h36 : pyInt "3306" = some 3306 := by decide
        rw [h36] at hp
        exact (Option.some.inj hp).symm
      · intro hh; rw [hh]; rfl
      · intro hh
        rw [hh] at htm
        simp only [Option.getD_none] at htm
        have h5 : pyInt "5" = some 5 := by decide
        rw [h5] at htm
        exact (Option.some.inj htm).symm
    · rw [Bool.not_eq_true] at hcond
      rw [hcond] at hcfg
      exact Except.noConfusion hcfg

/-- C8 (witness): with only the three required variables set,
`get_db_config` succeeds. -/
theorem get_db_config_contract_witness :
    (get_db_config envA).isOk = true ↔
      (truthy envA.mysql_user = true ∧ truthy envA.mysql_password = true ∧
        truthy envA.mysql_database = true) :=
  (get_db_config_contract envA (by decide) (by decide)).1
